import Mathlib

set_option maxRecDepth 40000

/-!
Shallow embedding of the PubMed proxy service (src/app.py) and verification
of its specification claims.

The Python source is embedded as pure Lean functions:
  - upstream HTTP responses are oracle inputs (already-decoded JSON values as
    Lean structures with optional fields, or the raw XML text as a string);
  - Python exceptions (fastapi HTTPException, httpx / tenacity upstream
    failures, int() ValueError) are an explicit error type threaded with
    `Except`;
  - the three `re` patterns used by `pubmed_abstract`
    (record splitting, title search, abstract-text findall, PMID search,
    tag stripping) are modelled character-exactly, including lazy-quantifier
    semantics and the fact that the tag-stripping and PMID patterns are
    compiled without the DOTALL flag (so `.` does not cross a newline there);
  - Python str.strip() and int(str) are modelled on ASCII text (the service
    only ever handles ASCII ids and markup tags).
All recursions are structural; scanning functions that advance through the
text by pattern occurrences take an explicit fuel argument initialised to
the text length, which strictly bounds the number of possible matches.
-/

/-- Python-level failures that can escape the handlers in src/app.py. -/
inductive PyErr where
  /-- fastapi HTTPException with a status code and detail string. -/
  | httpError (status : Nat) (detail : String)
  /-- an httpx / tenacity failure of an upstream GET (raise_for_status or
  connection error after retries are exhausted). -/
  | upstreamError (msg : String)
  /-- a Python ValueError, e.g. from int() on a non-numeric string. -/
  | valueError (msg : String)
deriving DecidableEq, Repr

/-- Python str.isspace characters relevant to str.strip() (ASCII range). -/
def isPySpace (c : Char) : Bool :=
  c = ' ' || c = '\t' || c = '\n' || c = '\r' || c = '\x0b' || c = '\x0c'

/-- Python str.strip(): drop whitespace from both ends. -/
def pyStrip (s : List Char) : List Char :=
  ((s.dropWhile isPySpace).reverse.dropWhile isPySpace).reverse

/-- Value of a list of decimal digit characters. -/
def digitsVal (ds : List Char) : Nat :=
  ds.foldl (fun n c => n * 10 + (c.toNat - 48)) 0

/-- Parse a nonempty all-digit character list, else none. -/
def decDigits (ds : List Char) : Option Nat :=
  if ds.isEmpty then none
  else if ds.all Char.isDigit then some (digitsVal ds)
  else none

/-- Python int(str): strip whitespace, allow one sign, then decimal digits;
anything else raises ValueError (modelled as none). -/
def pyIntParse (s : List Char) : Option Int :=
  match pyStrip s with
  | '-' :: ds => (decDigits ds).map (fun n => -(n : Int))
  | '+' :: ds => (decDigits ds).map (fun n => (n : Int))
  | ds => (decDigits ds).map (fun n => (n : Int))

/-- Split at the first occurrence of the literal pattern `pat`: returns the
text before the occurrence and the text after it.  This is the shared core
of every lazy literal search below (leftmost occurrence wins). -/
def splitOnceAfter (pat : List Char) : List Char → Option (List Char × List Char)
  | [] => if pat.isEmpty then some ([], []) else none
  | c :: rest =>
    if pat.isPrefixOf (c :: rest) then
      some ([], (c :: rest).drop pat.length)
    else
      match splitOnceAfter pat rest with
      | some (pre, post) => some (c :: pre, post)
      | none => none

/-- re.findall of a pattern `open(.*?)close` with DOTALL, on literal open and
close delimiters: repeatedly capture the (lazy, hence shortest) text between
the next open marker and the first close marker after it, resuming after the
close marker.  Fuel bounds the number of matches. -/
def findAllBetweenF (opn cls : List Char) : Nat → List Char → List (List Char)
  | 0, _ => []
  | fuel + 1, s =>
    match splitOnceAfter opn s with
    | none => []
    | some (_, afterOpen) =>
      match splitOnceAfter cls afterOpen with
      | none => []
      | some (body, rest) => body :: findAllBetweenF opn cls fuel rest

/-- re.findall of `open(.*?)close` with DOTALL on literal delimiters. -/
def findAllBetween (opn cls : List Char) (s : List Char) : List (List Char) :=
  findAllBetweenF opn cls (s.length + 1) s

/-- re.findall of the abstract-text pattern with DOTALL: the open literal is
followed by a lazy attribute gap up to the first closing angle bracket, then
the capture runs lazily up to the first close tag; resume after the close
tag.  Fuel bounds the number of matches. -/
def findAllAbsTextF : Nat → List Char → List (List Char)
  | 0, _ => []
  | fuel + 1, s =>
    match splitOnceAfter ("<AbstractText".data) s with
    | none => []
    | some (_, afterLit) =>
      match splitOnceAfter ['>'] afterLit with
      | none => []
      | some (_, afterGt) =>
        match splitOnceAfter ("</AbstractText>".data) afterGt with
        | none => []
        | some (body, rest) => body :: findAllAbsTextF fuel rest

/-- re.findall of the abstract-text pattern over a record segment. -/
def findAllAbsText (s : List Char) : List (List Char) :=
  findAllAbsTextF (s.length + 1) s

/-- re.search of `open(.*?)close` with DOTALL on literal delimiters: first
(leftmost) capture only. -/
def searchBetween (opn cls : List Char) (s : List Char) : Option (List Char) :=
  match splitOnceAfter opn s with
  | none => none
  | some (_, afterOpen) =>
    match splitOnceAfter cls afterOpen with
    | none => none
    | some (body, _) => some body

/-- One lazy attempt of the tail `.*?>(\d+)</PMID>` of the PMID pattern
(no DOTALL: the lazy gap may not cross a newline).  Scans for each candidate
closing angle bracket in order; at each, the digits immediately following
must run straight into the literal close tag. -/
def pmidLazyScan : List Char → Option (List Char)
  | [] => none
  | c :: rest =>
    if c = '\n' then none
    else if c = '>' then
      let digits := rest.takeWhile Char.isDigit
      if digits.isEmpty then pmidLazyScan rest
      else if ("</PMID>".data).isPrefixOf (rest.drop digits.length) then some digits
      else pmidLazyScan rest
    else pmidLazyScan rest

/-- re.search of the PMID pattern: try each occurrence of the open literal in
order; the first occurrence whose lazy tail matches wins. -/
def pmidSearchF : Nat → List Char → Option (List Char)
  | 0, _ => none
  | fuel + 1, s =>
    match splitOnceAfter ("<PMID".data) s with
    | none => none
    | some (_, afterLit) =>
      match pmidLazyScan afterLit with
      | some digits => some digits
      | none => pmidSearchF fuel afterLit

/-- re.search of the PMID pattern over a record segment. -/
def pmidSearch (s : List Char) : Option (List Char) :=
  pmidSearchF (s.length + 1) s

/-- Find the first closing angle bracket on the current line, returning the
text after it; none if a newline or the end of text comes first. -/
def findGtSameLine : List Char → Option (List Char)
  | [] => none
  | c :: rest =>
    if c = '>' then some rest
    else if c = '\n' then none
    else findGtSameLine rest

/-- re.sub of the tag pattern with the empty string (no DOTALL): each lazy
tag match, an open angle bracket up to the first close angle bracket on the
same line, is deleted; an unclosed bracket is kept verbatim. -/
def stripTagsF : Nat → List Char → List Char
  | 0, s => s
  | fuel + 1, s =>
    match s with
    | [] => []
    | c :: rest =>
      if c = '<' then
        match findGtSameLine rest with
        | some rest2 => stripTagsF fuel rest2
        | none => c :: stripTagsF fuel rest
      else c :: stripTagsF fuel rest

/-- re.sub of the tag pattern with the empty string. -/
def stripTags (s : List Char) : List Char :=
  stripTagsF s.length s

/-- One extracted article record: pmid, title, abstract (all strings,
empty when the corresponding marker was absent). -/
structure AbstractRecord where
  pmid : String
  title : String
  abstract : String
deriving DecidableEq, Repr

/-- The per-record-segment extraction loop body of pubmed_abstract
(src/app.py lines 140-146). -/
def extractArticle (art : List Char) : AbstractRecord :=
  { title :=
      match searchBetween ("<ArticleTitle>".data) ("</ArticleTitle>".data) art with
      | some t => String.mk (pyStrip (stripTags t))
      | none => ""
  , abstract :=
      String.mk (pyStrip (stripTags (List.flatten (findAllAbsText art))))
  , pmid :=
      match pmidSearch art with
      | some d => String.mk d
      | none => "" }

/-- The record segments of the XML payload (re.findall on the article
open and close markers, DOTALL). -/
def findArticleSegs (xml : String) : List (List Char) :=
  findAllBetween ("<PubmedArticle>".data) ("</PubmedArticle>".data) xml.data

/-- The parsing half of pubmed_abstract (src/app.py lines 138-149), applied
to the already-fetched XML text: extract every record segment; if none were
parsed raise HTTPException 404, else return the records. -/
def pubmed_abstractCore (xml : String) : Except PyErr (List AbstractRecord) :=
  let articles := (findArticleSegs xml).map extractArticle
  if articles.isEmpty then Except.error (PyErr.httpError 404 "No abstracts parsed")
  else Except.ok articles

/-- pubmed_abstract: the upstream efetch GET (an oracle that either fails or
yields the XML body) followed by the parsing half. -/
def pubmed_abstract (upstream : Except PyErr String) : Except PyErr (List AbstractRecord) :=
  match upstream with
  | Except.error e => Except.error e
  | Except.ok xml => pubmed_abstractCore xml

/-- The esearchresult JSON object: optional idlist and count fields. -/
structure ESearchResult where
  idlist : Option (List String)
  count : Option String
deriving DecidableEq, Repr

/-- The decoded esearch JSON body. -/
structure ESearchData where
  esearchresult : Option ESearchResult
deriving DecidableEq, Repr

/-- The JSON value pubmed_search returns. -/
structure SearchResult where
  count : Int
  pmids : List String
  query : String
deriving DecidableEq, Repr

/-- The parsing half of pubmed_search (src/app.py lines 97-99): idlist
defaults to the empty list when absent; count defaults to 0 when absent and
is otherwise passed through int(), whose failure on a non-numeric string is
an uncaught ValueError. -/
def pubmed_searchCore (query : String) (data : ESearchData) : Except PyErr SearchResult :=
  let er := data.esearchresult.getD ⟨none, none⟩
  let ids := er.idlist.getD []
  match er.count with
  | none => Except.ok ⟨0, ids, query⟩
  | some s =>
    match pyIntParse s.data with
    | some n => Except.ok ⟨n, ids, query⟩
    | none => Except.error (PyErr.valueError s)

/-- pubmed_search: the upstream esearch GET followed by the parsing half. -/
def pubmed_search (query : String) (upstream : Except PyErr ESearchData) :
    Except PyErr SearchResult :=
  match upstream with
  | Except.error e => Except.error e
  | Except.ok data => pubmed_searchCore query data

/-- One entry of an esummary authors list: optional name field. -/
structure AuthorObj where
  name : Option String
deriving DecidableEq, Repr

/-- One per-id detail object of the esummary result (all fields optional,
matching dict.get on the decoded JSON). -/
structure SummaryItem where
  title : Option String
  fulljournalname : Option String
  source : Option String
  pubdate : Option String
  authors : Option (List AuthorObj)
  elocationid : Option String
deriving DecidableEq, Repr

/-- The esummary result object: the uids list plus the per-uid detail
objects (a JSON object, modelled as an association list with unique keys;
lookup takes the first match). -/
structure EResultData where
  uids : Option (List String)
  items : List (String × SummaryItem)
deriving DecidableEq, Repr

/-- The decoded esummary JSON body. -/
structure ESummaryData where
  result : Option EResultData
deriving DecidableEq, Repr

/-- dict.get(uid, default) on the result object's per-uid entries. -/
def lookupUid (items : List (String × SummaryItem)) (uid : String) : Option SummaryItem :=
  (items.find? (fun p => p.1 == uid)).map (fun p => p.2)

/-- A detail object with every field absent (the default when a listed uid
has no detail object). -/
def emptyItem : SummaryItem := ⟨none, none, none, none, none, none⟩

/-- Python `a or b` on two optional JSON strings: a string is falsy exactly
when it is absent or empty. -/
def pyOrStr (a b : Option String) : Option String :=
  match a with
  | some s => if s = "" then b else some s
  | none => b

/-- The authors list comprehension: keep, in order, the name of every author
entry whose name is present and non-empty. -/
def authorNames (authors : List AuthorObj) : List String :=
  authors.filterMap (fun a =>
    match a.name with
    | some n => if n = "" then none else some n
    | none => none)

/-- One normalized summary record (src/app.py lines 112-119). -/
structure SummaryRecord where
  pmid : String
  title : Option String
  journal : Option String
  pubdate : Option String
  authors : List String
  doi : String
deriving DecidableEq, Repr

/-- The loop body of pubmed_summary: build the record for one listed uid
from its detail object. -/
def summaryRecordOf (uid : String) (item : SummaryItem) : SummaryRecord :=
  { pmid := uid
  , title := item.title
  , journal := pyOrStr item.fulljournalname item.source
  , pubdate := item.pubdate
  , authors := authorNames (item.authors.getD [])
  , doi := item.elocationid.getD "" }

/-- The reshaping half of pubmed_summary (src/app.py lines 108-120):
iterate the uids list in upstream order, defaulting a missing detail object
to the all-absent one. -/
def pubmed_summaryCore (data : ESummaryData) : List SummaryRecord :=
  let res := data.result.getD ⟨none, []⟩
  (res.uids.getD []).map (fun uid =>
    summaryRecordOf uid ((lookupUid res.items uid).getD emptyItem))

/-- pubmed_summary: the upstream esummary GET followed by the reshaping. -/
def pubmed_summary (upstream : Except PyErr ESummaryData) :
    Except PyErr (List SummaryRecord) :=
  match upstream with
  | Except.error e => Except.error e
  | Except.ok data => Except.ok (pubmed_summaryCore data)

/-- A merged record: every SummaryRecord field plus the abstract. -/
structure MergedRecord where
  pmid : String
  title : Option String
  journal : Option String
  pubdate : Option String
  authors : List String
  doi : String
  abstract : String
deriving DecidableEq, Repr

/-- The abs_map dict comprehension keyed by pmid, as a lookup: a Python dict
built from a list keeps the LAST entry for a duplicated key. -/
def absMapGet (arecs : List AbstractRecord) (pmid : String) : Option AbstractRecord :=
  (arecs.filter (fun a => a.pmid == pmid)).getLast?

/-- The merge loop body of pubmed_search_and_fetch (src/app.py lines
172-177): copy the summary record's fields and add the abstract looked up
by pmid, defaulting to the empty string when the pmid is absent. -/
def mergeOne (arecs : List AbstractRecord) (rec : SummaryRecord) : MergedRecord :=
  { pmid := rec.pmid
  , title := rec.title
  , journal := rec.journal
  , pubdate := rec.pubdate
  , authors := rec.authors
  , doi := rec.doi
  , abstract :=
      match absMapGet arecs rec.pmid with
      | some a => a.abstract
      | none => "" }

/-- The merge loop of pubmed_search_and_fetch: one merged record per
summary record, in summary order. -/
def mergeRecords (summ : List SummaryRecord) (arecs : List AbstractRecord) :
    List MergedRecord :=
  summ.map (mergeOne arecs)

/-- The upstream oracle for one search_and_fetch request: the decoded
esearch body (or failure), and the esummary body and efetch XML text as
functions of the comma-joined id list they are requested with. -/
structure Upstream where
  searchData : Except PyErr ESearchData
  summaryData : String → Except PyErr ESummaryData
  abstractXml : String → Except PyErr String

/-- The JSON value pubmed_search_and_fetch returns.  The query field is
optional because the zero-id short-circuit return (src/app.py line 163)
builds a dict without a query key. -/
structure SFResult where
  count : Int
  records : List MergedRecord
  query : Option String
deriving DecidableEq, Repr

/-- One upstream call event, for stating which calls a request issued. -/
inductive CallEv where
  | search
  | summary (ids : String)
  | abstract (ids : String)
deriving DecidableEq, Repr

/-- ",".join on the pmids list. -/
def joinComma (ss : List String) : String := String.intercalate "," ss

/-- pubmed_search_and_fetch (src/app.py lines 152-178): search, then if the
id list is empty return count and an empty records list at once; otherwise
call summary then abstract on the comma-joined ids and merge.  The second
component records the upstream calls issued, in order; any failure
propagates unchanged as the Except error. -/
def pubmed_search_and_fetch (query : String) (up : Upstream) :
    Except PyErr SFResult × List CallEv :=
  match pubmed_search query up.searchData with
  | Except.error e => (Except.error e, [CallEv.search])
  | Except.ok srch =>
    if srch.pmids.isEmpty then
      (Except.ok ⟨srch.count, [], none⟩, [CallEv.search])
    else
      let ids := joinComma srch.pmids
      match up.summaryData ids with
      | Except.error e => (Except.error e, [CallEv.search, CallEv.summary ids])
      | Except.ok sdata =>
        let summ := pubmed_summaryCore sdata
        match pubmed_abstract (up.abstractXml ids) with
        | Except.error e =>
          (Except.error e, [CallEv.search, CallEv.summary ids, CallEv.abstract ids])
        | Except.ok arecs =>
          (Except.ok ⟨srch.count, mergeRecords summ arecs, some query⟩,
           [CallEv.search, CallEv.summary ids, CallEv.abstract ids])

/-! ## Concrete fixtures used by witnesses -/

/-- Summary records for ids 1, 2, 3 (the specification's merge example). -/
def exSumm : List SummaryRecord :=
  [⟨"1", some "T1", some "J1", some "2020", ["A B"], ""⟩,
   ⟨"2", some "T2", none, none, [], ""⟩,
   ⟨"3", some "T3", some "J3", some "2021", ["C D"], "doi3"⟩]

/-- Abstract records for ids 1 and 3 only. -/
def exArecs : List AbstractRecord :=
  [⟨"1", "T1", "Abs one"⟩, ⟨"3", "T3", "Abs three"⟩]

/-- An upstream oracle whose search leg succeeds with an empty id list and
count 7; the other legs must never be consulted. -/
def zeroUp : Upstream :=
  { searchData := Except.ok ⟨some ⟨some [], some "7"⟩⟩
  , summaryData := fun _ => Except.error (PyErr.upstreamError "not called")
  , abstractXml := fun _ => Except.error (PyErr.upstreamError "not called") }

/-! ## Claims -/

/-- C1: in the merge step of search_and_fetch, every summary record yields a
merged record (the merge never fails); when the record's id is absent from
the abstract map the merged abstract is the empty string, and when it is
present the merged abstract equals that abstract record's abstract field. -/
theorem merge_missing_id_defaults_empty (summ : List SummaryRecord)
    (arecs : List AbstractRecord) (i : Nat) (r : SummaryRecord)
    (hr : summ[i]? = some r) :
    ∃ m, (mergeRecords summ arecs)[i]? = some m ∧
      (absMapGet arecs r.pmid = none → m.abstract = "") ∧
      (∀ a, absMapGet arecs r.pmid = some a → m.abstract = a.abstract) := by
  refine ⟨mergeOne arecs r, ?_, ?_, ?_⟩
  · simp [mergeRecords, List.getElem?_map, hr]
  · intro hnone
    simp [mergeOne, hnone]
  · intro a ha
    simp [mergeOne, ha]

/-- Witness for C1 on the specification's example: id 2 has no abstract
record and merges to an empty abstract; id 3 merges to its abstract. -/
theorem merge_missing_id_defaults_empty_check :
    (∃ m, (mergeRecords exSumm exArecs)[1]? = some m ∧ m.abstract = "") ∧
    (∃ m, (mergeRecords exSumm exArecs)[2]? = some m ∧ m.abstract = "Abs three") := by
  constructor
  · obtain ⟨m, hm, hnone, _⟩ :=
      merge_missing_id_defaults_empty exSumm exArecs 1
        ⟨"2", some "T2", none, none, [], ""⟩ (by rfl)
    exact ⟨m, hm, hnone (by rfl)⟩
  · obtain ⟨m, hm, _, hsome⟩ :=
      merge_missing_id_defaults_empty exSumm exArecs 2
        ⟨"3", some "T3", some "J3", some "2021", ["C D"], "doi3"⟩ (by rfl)
    exact ⟨m, hm, hsome ⟨"3", "T3", "Abs three"⟩ (by rfl)⟩

/-- C2: the merged list has exactly one record per summary record, in the
same order; the i-th merged record copies every field of the i-th summary
record (the abstract is the only added field); and the abstract list has no
effect on the order, whose projection to ids always equals the summary
id sequence. -/
theorem merge_follows_summary_order (summ : List SummaryRecord)
    (arecs : List AbstractRecord) :
    (mergeRecords summ arecs).length = summ.length ∧
    (∀ (i : Nat) (r : SummaryRecord), summ[i]? = some r →
      ∃ m, (mergeRecords summ arecs)[i]? = some m ∧
        m.pmid = r.pmid ∧ m.title = r.title ∧ m.journal = r.journal ∧
        m.pubdate = r.pubdate ∧ m.authors = r.authors ∧ m.doi = r.doi) ∧
    (∀ arecs2, (mergeRecords summ arecs2).map MergedRecord.pmid =
      summ.map SummaryRecord.pmid) := by
  refine ⟨by simp [mergeRecords], ?_, ?_⟩
  · intro i r hr
    exact ⟨mergeOne arecs r, by simp [mergeRecords, List.getElem?_map, hr],
      rfl, rfl, rfl, rfl, rfl, rfl⟩
  · intro arecs2
    simp [mergeRecords, List.map_map, Function.comp, mergeOne]

/-- Witness for C2 on the specification's example: three merged records and
the first copies summary record 1's fields. -/
theorem merge_follows_summary_order_check :
    (mergeRecords exSumm exArecs).length = 3 ∧
    (∃ m, (mergeRecords exSumm exArecs)[0]? = some m ∧
      m.pmid = "1" ∧ m.title = some "T1") := by
  obtain ⟨hlen, hord, _⟩ := merge_follows_summary_order exSumm exArecs
  refine ⟨by rw [hlen]; rfl, ?_⟩
  obtain ⟨m, hm, hp, ht, _⟩ :=
    hord 0 ⟨"1", some "T1", some "J1", some "2020", ["A B"], ""⟩ (by rfl)
  exact ⟨m, hm, by rw [hp], by rw [ht]⟩

/-- C3: when search succeeds with an empty id list, search_and_fetch
returns, successfully, the search count with an empty records list, and the
only upstream call issued is the search one. -/
theorem sf_zero_ids_short_circuit (query : String) (up : Upstream)
    (srch : SearchResult) (h : pubmed_search query up.searchData = Except.ok srch)
    (hz : srch.pmids = []) :
    pubmed_search_and_fetch query up =
      (Except.ok ⟨srch.count, [], none⟩, [CallEv.search]) := by
  simp [pubmed_search_and_fetch, h, hz]

/-- Witness for C3: a concrete upstream with count 7 and no ids. -/
theorem sf_zero_ids_short_circuit_check :
    pubmed_search_and_fetch "cancer" zeroUp =
      (Except.ok ⟨7, [], none⟩, [CallEv.search]) :=
  sf_zero_ids_short_circuit "cancer" zeroUp ⟨7, [], "cancer"⟩ (by rfl) (by rfl)

/-- C4 counterexample: a successful search_and_fetch response that carries
no query field.  On the zero-id short-circuit (src/app.py line 163) the
returned dict has only count and records, so the claim that every
successful return contains the query field is false. -/
theorem sf_query_field_absent_on_zero_ids :
    ∃ res, (pubmed_search_and_fetch "cancer" zeroUp).1 = Except.ok res ∧
      res.query = none ∧ res.query ≠ some "cancer" :=
  ⟨⟨7, [], none⟩, by rfl, rfl, by simp⟩

/-- C4 (amended): every successful search_and_fetch result carries count
and records; the query field equals the caller's query on the non-empty-id
path, and on the zero-id short-circuit the query field is absent and the
records list is empty. -/
theorem sf_success_fields (query : String) (up : Upstream) (res : SFResult)
    (tr : List CallEv)
    (h : pubmed_search_and_fetch query up = (Except.ok res, tr)) :
    res.query = some query ∨ (res.query = none ∧ res.records = []) := by
  cases hs : pubmed_search query up.searchData with
  | error e => simp [pubmed_search_and_fetch, hs] at h
  | ok srch =>
    by_cases hz : srch.pmids.isEmpty
    · simp [pubmed_search_and_fetch, hs, hz] at h
      right
      rw [← h.1]
      exact ⟨rfl, rfl⟩
    · cases hsum : up.summaryData (joinComma srch.pmids) with
      | error e => simp [pubmed_search_and_fetch, hs, hz, hsum] at h
      | ok sdata =>
        cases habs : pubmed_abstract (up.abstractXml (joinComma srch.pmids)) with
        | error e => simp [pubmed_search_and_fetch, hs, hz, hsum, habs] at h
        | ok arecs =>
          simp [pubmed_search_and_fetch, hs, hz, hsum, habs] at h
          left
          rw [← h.1]

/-- Witness for the amended C4, at a zero-id upstream. -/
theorem sf_success_fields_check :
    (⟨7, [], none⟩ : SFResult).query = some "cancer" ∨
      ((⟨7, [], none⟩ : SFResult).query = none ∧
        (⟨7, [], none⟩ : SFResult).records = []) :=
  sf_success_fields "cancer" zeroUp ⟨7, [], none⟩ [CallEv.search] (by rfl)

/-- An upstream whose search leg fails. -/
def failSearchUp : Upstream :=
  { searchData := Except.error (PyErr.upstreamError "esearch down")
  , summaryData := fun _ => Except.error (PyErr.upstreamError "not called")
  , abstractXml := fun _ => Except.error (PyErr.upstreamError "not called") }

/-- An upstream whose search leg returns one id and whose summary leg
fails. -/
def failSummaryUp : Upstream :=
  { searchData := Except.ok ⟨some ⟨some ["11"], some "1"⟩⟩
  , summaryData := fun _ => Except.error (PyErr.upstreamError "esummary down")
  , abstractXml := fun _ => Except.ok "<PubmedArticle><PMID>11</PMID></PubmedArticle>" }

/-- An upstream whose search and summary legs succeed for one id but whose
efetch body contains no record segments, triggering the 404 NotFound. -/
def failAbstractUp : Upstream :=
  { searchData := Except.ok ⟨some ⟨some ["11"], some "1"⟩⟩
  , summaryData := fun _ => Except.ok ⟨some ⟨some ["11"], [("11", emptyItem)]⟩⟩
  , abstractXml := fun _ => Except.ok "nothing parseable here" }

/-- C8: a search failure aborts search_and_fetch before any summary or
abstract call is issued; when search succeeds with a non-empty id list, a
summary failure aborts before the abstract call, and an abstract failure
(upstream or the 404 NotFound) aborts after both calls; each failure
propagates unchanged as the whole request's error and no partial merged
result is returned. -/
theorem sf_failure_propagation (query : String) (up : Upstream) :
    (∀ e, pubmed_search query up.searchData = Except.error e →
      pubmed_search_and_fetch query up = (Except.error e, [CallEv.search])) ∧
    (∀ srch, pubmed_search query up.searchData = Except.ok srch →
      srch.pmids ≠ [] →
      (∀ e, up.summaryData (joinComma srch.pmids) = Except.error e →
        pubmed_search_and_fetch query up =
          (Except.error e, [CallEv.search, CallEv.summary (joinComma srch.pmids)])) ∧
      (∀ sdata e, up.summaryData (joinComma srch.pmids) = Except.ok sdata →
        pubmed_abstract (up.abstractXml (joinComma srch.pmids)) = Except.error e →
        pubmed_search_and_fetch query up =
          (Except.error e, [CallEv.search, CallEv.summary (joinComma srch.pmids),
            CallEv.abstract (joinComma srch.pmids)]))) := by
  refine ⟨?_, ?_⟩
  · intro e he
    simp [pubmed_search_and_fetch, he]
  · intro srch hs hne
    have hz : ¬ srch.pmids.isEmpty = true := by
      simpa using hne
    refine ⟨?_, ?_⟩
    · intro e he
      simp [pubmed_search_and_fetch, hs, hz, he]
    · intro sdata e hsum habs
      simp [pubmed_search_and_fetch, hs, hz, hsum, habs]

/-- Witness for C8: all three failure legs at concrete upstreams. -/
theorem sf_failure_propagation_check :
    pubmed_search_and_fetch "q" failSearchUp =
      (Except.error (PyErr.upstreamError "esearch down"), [CallEv.search]) ∧
    pubmed_search_and_fetch "q" failSummaryUp =
      (Except.error (PyErr.upstreamError "esummary down"),
        [CallEv.search, CallEv.summary "11"]) ∧
    pubmed_search_and_fetch "q" failAbstractUp =
      (Except.error (PyErr.httpError 404 "No abstracts parsed"),
        [CallEv.search, CallEv.summary "11", CallEv.abstract "11"]) := by
  refine ⟨?_, ?_, ?_⟩
  · exact (sf_failure_propagation "q" failSearchUp).1 _ (by rfl)
  · exact (((sf_failure_propagation "q" failSummaryUp).2 ⟨1, ["11"], "q"⟩
      (by rfl) (by simp)).1) _ (by rfl)
  · exact (((sf_failure_propagation "q" failAbstractUp).2 ⟨1, ["11"], "q"⟩
      (by rfl) (by simp)).2) ⟨some ⟨some ["11"], [("11", emptyItem)]⟩⟩ _
      (by rfl) (by rfl)

/-- The esummary body of the all-success fixture: details for ids 1 and 3. -/
def okSummaryData : ESummaryData :=
  ⟨some ⟨some ["1", "3"],
    [("1", ⟨some "T1", some "J1", none, some "2020", some [⟨some "A B"⟩], some "d1"⟩),
     ("3", ⟨some "T3", none, some "Src", none, some [⟨none⟩, ⟨some "C"⟩], none⟩)]⟩⟩

/-- An upstream where every leg succeeds: two ids, two summary details, one
parseable abstract segment. -/
def okUp : Upstream :=
  { searchData := Except.ok ⟨some ⟨some ["1", "3"], some "25"⟩⟩
  , summaryData := fun _ => Except.ok okSummaryData
  , abstractXml := fun _ =>
      Except.ok "<PubmedArticle><PMID>1</PMID><AbstractText>X</AbstractText></PubmedArticle>" }

/-- C9: when search returns a non-empty id list, the summary call succeeds
listing exactly those ids, and the abstract call succeeds, search_and_fetch
succeeds with exactly as many merged records as search returned ids. -/
theorem sf_record_count_matches_ids (query : String) (up : Upstream)
    (srch : SearchResult) (sdata : ESummaryData) (arecs : List AbstractRecord)
    (hs : pubmed_search query up.searchData = Except.ok srch)
    (hne : srch.pmids ≠ [])
    (hsum : up.summaryData (joinComma srch.pmids) = Except.ok sdata)
    (huids : (sdata.result.getD ⟨none, []⟩).uids = some srch.pmids)
    (habs : pubmed_abstract (up.abstractXml (joinComma srch.pmids)) = Except.ok arecs) :
    ∃ res tr, pubmed_search_and_fetch query up = (Except.ok res, tr) ∧
      res.records.length = srch.pmids.length := by
  have hz : ¬ srch.pmids.isEmpty = true := by
    simpa using hne
  refine ⟨⟨srch.count, mergeRecords (pubmed_summaryCore sdata) arecs, some query⟩,
    [CallEv.search, CallEv.summary (joinComma srch.pmids),
      CallEv.abstract (joinComma srch.pmids)],
    by simp [pubmed_search_and_fetch, hs, hz, hsum, habs], ?_⟩
  show (mergeRecords (pubmed_summaryCore sdata) arecs).length = srch.pmids.length
  simp [mergeRecords, pubmed_summaryCore, huids]

/-- Witness for C9: the all-success fixture with two ids yields two merged
records. -/
theorem sf_record_count_matches_ids_check :
    ∃ res tr, pubmed_search_and_fetch "q" okUp = (Except.ok res, tr) ∧
      res.records.length = 2 := by
  obtain ⟨res, tr, heq, hlen⟩ :=
    sf_record_count_matches_ids "q" okUp ⟨25, ["1", "3"], "q"⟩ okSummaryData
      [⟨"1", "", "X"⟩] (by rfl) (by simp) (by rfl) (by rfl) (by rfl)
  exact ⟨res, tr, heq, by rw [hlen]; rfl⟩

/-- C10: in pubmed_search, an absent upstream count field defaults to 0,
while a present count field passes through int(): a non-convertible string
raises an uncaught ValueError and a convertible one yields its value; the
idlist defaults to the empty list in every successful case. -/
theorem search_count_parse_semantics (query : String) (data : ESearchData) :
    ((data.esearchresult.getD ⟨none, none⟩).count = none →
      pubmed_searchCore query data =
        Except.ok ⟨0, (data.esearchresult.getD ⟨none, none⟩).idlist.getD [], query⟩) ∧
    (∀ s, (data.esearchresult.getD ⟨none, none⟩).count = some s →
      (pyIntParse s.data = none →
        pubmed_searchCore query data = Except.error (PyErr.valueError s)) ∧
      (∀ n, pyIntParse s.data = some n →
        pubmed_searchCore query data =
          Except.ok ⟨n, (data.esearchresult.getD ⟨none, none⟩).idlist.getD [], query⟩)) := by
  refine ⟨?_, ?_⟩
  · intro h
    simp [pubmed_searchCore, h]
  · intro s hsome
    refine ⟨?_, ?_⟩
    · intro hbad
      simp [pubmed_searchCore, hsome, hbad]
    · intro n hn
      simp [pubmed_searchCore, hsome, hn]

/-- Witness for C10: absent count gives 0; count 12abc raises ValueError;
a convertible padded count parses. -/
theorem search_count_parse_semantics_check :
    pubmed_searchCore "q" ⟨some ⟨some ["5"], none⟩⟩ = Except.ok ⟨0, ["5"], "q"⟩ ∧
    pubmed_searchCore "q" ⟨some ⟨some ["5"], some "12abc"⟩⟩ =
      Except.error (PyErr.valueError "12abc") ∧
    pubmed_searchCore "q" ⟨some ⟨none, some " 12 "⟩⟩ = Except.ok ⟨12, [], "q"⟩ := by
  refine ⟨?_, ?_, ?_⟩
  · exact (search_count_parse_semantics "q" ⟨some ⟨some ["5"], none⟩⟩).1 (by rfl)
  · exact ((search_count_parse_semantics "q" ⟨some ⟨some ["5"], some "12abc"⟩⟩).2
      "12abc" (by rfl)).1 (by rfl)
  · exact ((search_count_parse_semantics "q" ⟨some ⟨none, some " 12 "⟩⟩).2
      " 12 " (by rfl)).2 12 (by rfl)

/-- pubmed_abstractCore either fails with the 404 (no segments) or returns
the per-segment extraction of every segment, depending only on whether any
record segment was found. -/
theorem abstractCore_split (xml : String) :
    (findArticleSegs xml = [] ∧
      pubmed_abstractCore xml =
        Except.error (PyErr.httpError 404 "No abstracts parsed")) ∨
    (findArticleSegs xml ≠ [] ∧
      pubmed_abstractCore xml =
        Except.ok ((findArticleSegs xml).map extractArticle)) := by
  cases h : findArticleSegs xml with
  | nil => exact Or.inl ⟨rfl, by simp [pubmed_abstractCore, h]⟩
  | cons a l => exact Or.inr ⟨by simp [h], by simp [pubmed_abstractCore, h]⟩

/-- The full XML fixture of the specification's round-trip test: one fully
populated record and one with a structured two-block abstract. -/
def exXml : String :=
  "<PubmedArticle><PMID Version=\"1\">101</PMID><ArticleTitle>First <i>Title</i></ArticleTitle><Abstract><AbstractText>Only block.</AbstractText></Abstract></PubmedArticle><PubmedArticle><PMID Version=\"1\">202</PMID><ArticleTitle>Second Title</ArticleTitle><Abstract><AbstractText Label=\"BACKGROUND\">Part one. </AbstractText><AbstractText Label=\"METHODS\">Part two.</AbstractText></Abstract></PubmedArticle>"

/-- The records pubmed_abstractCore extracts from exXml. -/
def exRecs : List AbstractRecord :=
  [⟨"101", "First Title", "Only block."⟩,
   ⟨"202", "Second Title", "Part one. Part two."⟩]

/-- The second (structured-abstract) record segment of exXml. -/
def exSeg2 : List Char :=
  ("<PMID Version=\"1\">202</PMID><ArticleTitle>Second Title</ArticleTitle><Abstract><AbstractText Label=\"BACKGROUND\">Part one. </AbstractText><AbstractText Label=\"METHODS\">Part two.</AbstractText></Abstract>").data

/-- C5: for every record segment of an abstract payload, the extracted
record's abstract equals the concatenation, in document order and with no
separator, of all abstract-text captures of that segment, with nested tags
then stripped and surrounding whitespace trimmed; a segment with no
abstract-text markers yields the empty abstract. -/
theorem abstract_concat_strip_trim (xml : String) (recs : List AbstractRecord)
    (h : pubmed_abstractCore xml = Except.ok recs) (i : Nat) (seg : List Char)
    (hseg : (findArticleSegs xml)[i]? = some seg) :
    ∃ r, recs[i]? = some r ∧
      r.abstract = String.mk (pyStrip (stripTags (List.flatten (findAllAbsText seg)))) ∧
      (findAllAbsText seg = [] → r.abstract = "") := by
  have hrecs : recs = (findArticleSegs xml).map extractArticle := by
    rcases abstractCore_split xml with ⟨_, herr⟩ | ⟨_, hok⟩
    · rw [h] at herr
      simp at herr
    · rw [h] at hok
      exact Except.ok.inj hok
  refine ⟨extractArticle seg, ?_, rfl, ?_⟩
  · rw [hrecs]
    simp [List.getElem?_map, hseg]
  · intro h0
    simp only [extractArticle, h0]
    rfl

/-- Witness for C5: the structured record of the round-trip fixture merges
its two labeled blocks into one tag-stripped, trimmed abstract. -/
theorem abstract_concat_strip_trim_check :
    ∃ r, exRecs[1]? = some r ∧ r.abstract = "Part one. Part two." := by
  obtain ⟨r, hr, habs, _⟩ :=
    abstract_concat_strip_trim exXml exRecs (by rfl) 1 exSeg2 (by rfl)
  exact ⟨r, hr, by rw [habs]; rfl⟩

/-- C6: any payload with at least one record segment succeeds, records are
extracted independently segment by segment, and within one segment a
missing title marker, missing abstract-text markers, or missing id marker
degrade only that record's field to the empty string. -/
theorem abstract_partial_record_degrades (xml : String)
    (hne : findArticleSegs xml ≠ []) :
    pubmed_abstractCore xml =
      Except.ok ((findArticleSegs xml).map extractArticle) ∧
    ∀ seg : List Char,
      (searchBetween ("<ArticleTitle>".data) ("</ArticleTitle>".data) seg = none →
        (extractArticle seg).title = "") ∧
      (findAllAbsText seg = [] → (extractArticle seg).abstract = "") ∧
      (pmidSearch seg = none → (extractArticle seg).pmid = "") := by
  refine ⟨?_, ?_⟩
  · rcases abstractCore_split xml with ⟨hnil, _⟩ | ⟨_, hok⟩
    · exact absurd hnil hne
    · exact hok
  · intro seg
    refine ⟨?_, ?_, ?_⟩
    · intro h0
      simp [extractArticle, h0]
    · intro h0
      simp [extractArticle, h0]
      rfl
    · intro h0
      simp [extractArticle, h0]

/-- A payload with one fully populated segment and one segment missing all
three markers. -/
def degXml : String :=
  "<PubmedArticle><PMID>7</PMID><ArticleTitle>T</ArticleTitle><AbstractText>A</AbstractText></PubmedArticle><PubmedArticle>bare segment</PubmedArticle>"

/-- Witness for C6: the marker-less segment degrades to empty fields while
the populated segment is extracted in full. -/
theorem abstract_partial_record_degrades_check :
    pubmed_abstractCore degXml =
      Except.ok [⟨"7", "T", "A"⟩, ⟨"", "", ""⟩] ∧
    (extractArticle ("bare segment".data)).title = "" ∧
    (extractArticle ("bare segment".data)).abstract = "" ∧
    (extractArticle ("bare segment".data)).pmid = "" := by
  obtain ⟨hok, hdeg⟩ := abstract_partial_record_degrades degXml (by decide)
  obtain ⟨ht, ha, hp⟩ := hdeg ("bare segment".data)
  refine ⟨?_, ht (by rfl), ha (by rfl), hp (by rfl)⟩
  rw [hok]
  rfl

/-- C7: the abstract extractor raises the 404 NotFound exactly when zero
record segments parse from the payload; any payload with at least one
segment succeeds with records; and an upstream failure of the efetch call
propagates as its own error, which is never equal to the 404 NotFound. -/
theorem abstract_notfound_iff_no_segments (xml : String) :
    (pubmed_abstractCore xml =
        Except.error (PyErr.httpError 404 "No abstracts parsed") ↔
      findArticleSegs xml = []) ∧
    (findArticleSegs xml ≠ [] →
      pubmed_abstractCore xml =
        Except.ok ((findArticleSegs xml).map extractArticle)) ∧
    (∀ e, pubmed_abstract (Except.error e) = Except.error e) ∧
    (∀ msg detail, PyErr.upstreamError msg ≠ PyErr.httpError 404 detail) := by
  refine ⟨⟨?_, ?_⟩, ?_, ?_, ?_⟩
  · intro herr
    rcases abstractCore_split xml with ⟨hnil, _⟩ | ⟨_, hok⟩
    · exact hnil
    · rw [hok] at herr
      simp at herr
  · intro hnil
    simp [pubmed_abstractCore, hnil]
  · intro hne
    rcases abstractCore_split xml with ⟨hnil, _⟩ | ⟨_, hok⟩
    · exact absurd hnil hne
    · exact hok
  · intro e
    rfl
  · intro msg detail h0
    exact PyErr.noConfusion h0

/-- Witness for C7: a segment-free payload raises the 404; an upstream
efetch failure passes through distinct from it. -/
theorem abstract_notfound_iff_no_segments_check :
    pubmed_abstractCore "<html>nothing</html>" =
      Except.error (PyErr.httpError 404 "No abstracts parsed") ∧
    pubmed_abstract (Except.error (PyErr.upstreamError "efetch down")) =
      Except.error (PyErr.upstreamError "efetch down") ∧
    PyErr.upstreamError "efetch down" ≠ PyErr.httpError 404 "No abstracts parsed" := by
  obtain ⟨⟨_, hiff⟩, _, hprop, hdist⟩ :=
    abstract_notfound_iff_no_segments "<html>nothing</html>"
  exact ⟨hiff (by rfl), hprop _, hdist _ _⟩
